import Mathlib

/-!
Shallow embedding of `crates/services/p2p/src/config.rs` from fuel-core:
the two-phase p2p configuration (`Config<NotInitialized>` / `Config<Initialized>`),
its `init` and `default` constructors, the transport composition pipeline
(`build_transport`), and `peer_ids_set_from`.

External collaborators that `config.rs` relies on but whose code is not part of
this file's source (the genesis commitment, the checksum newtype, the
connection-state registry, and the admission approvers) are modelled from the
specification, each marked `Modelled from the spec:` in its doc comment.
-/

namespace FuelCoreP2P

/-- A peer identity, cryptographically bound to a peer's public key
(libp2p `PeerId`), abstracted to a number. -/
abbrev PeerId := Nat

/-- Modelled from the spec: a libp2p `Multiaddr`; per the external-interface
section, an address may or may not encode a peer identity. The transport part
of the address is abstracted to a number. -/
structure Multiaddr where
  addr : Nat
  peer_id : Option PeerId
  deriving DecidableEq

/-- Rust `std::time::Duration`, in milliseconds. -/
structure Duration where
  millis : Nat
  deriving DecidableEq

def Duration.from_secs (s : Nat) : Duration := ⟨s * 1000⟩

def Duration.from_millis (ms : Nat) : Duration := ⟨ms⟩

structure Ipv4Addr where
  a : Nat
  b : Nat
  c : Nat
  d : Nat
  deriving DecidableEq

inductive IpAddr where
  | V4 (addr : Ipv4Addr)
  deriving DecidableEq

/-- A libp2p secp256k1 keypair, abstracted to its generation entropy; the
source generates it randomly in `Config::default`, so the model takes it as an
explicit argument there. -/
abbrev Keypair := Nat

/-- The gossipsub configuration is out of scope for this layer; abstracted. -/
abbrev GossipsubConfig := Nat

/-- Stand-in for `default_gossipsub_config()` from the gossipsub module. -/
def default_gossipsub_config : GossipsubConfig := 0

/-- The heartbeat configuration is out of scope for this layer; abstracted. -/
abbrev HeartbeatConfig := Nat

def HeartbeatConfig.default : HeartbeatConfig := 0

/-- Modelled from the spec: the `Checksum` newtype of the `fuel_upgrade`
submodule (not part of this source file): a fixed-size opaque value derived
from the genesis root, with a placeholder `Default` value. The 32 bytes are
abstracted to a number. -/
structure Checksum where
  value : Nat
  deriving DecidableEq

/-- The placeholder value produced by `Default::default()` for `Checksum`. -/
def Checksum.default : Checksum := ⟨0⟩

/-- The `From<Bytes32>` conversion applied to the genesis root (`.into()`). -/
def Checksum.from_root (root : Nat) : Checksum := ⟨root⟩

inductive GenesisCommitmentError where
  | rootComputationFailed
  deriving DecidableEq

/-- Modelled from the spec: a genesis definition (from `fuel_core_types`, not
part of this source file). Its state is abstracted to a number, plus a flag
describing whether the state is malformed. -/
structure Genesis where
  chain_state : Nat
  malformed : Bool
  deriving DecidableEq

/-- Modelled from the spec: `GenesisCommitment::root` from
`fuel_core_chain_config` (not part of this source file): a deterministic
commitment/root computation over the genesis state that fails on a malformed
genesis state. -/
def Genesis.root (g : Genesis) : Except GenesisCommitmentError Nat :=
  if g.malformed then Except.error GenesisCommitmentError.rootComputationFailed
  else Except.ok g.chain_state

/-- `pub struct Initialized(());` — the initialized typestate marker; in Rust
its `()` field is private, so values can only be produced inside the module
(by `init`). -/
structure Initialized where
  deriving DecidableEq

/-- `pub struct NotInitialized;` -/
structure NotInitialized where
  deriving DecidableEq

/-- `pub struct Config<State = Initialized>`, with every field of the source. -/
structure Config (State : Type) where
  keypair : Keypair
  network_name : String
  checksum : Checksum
  address : IpAddr
  public_address : Option Multiaddr
  tcp_port : Nat
  max_block_size : Nat
  max_headers_per_request : Nat
  bootstrap_nodes : List Multiaddr
  enable_mdns : Bool
  allow_private_addresses : Bool
  random_walk : Option Duration
  connection_idle_timeout : Option Duration
  reserved_nodes : List Multiaddr
  reserved_nodes_only_mode : Bool
  max_peers_connected : Nat
  max_connections_per_peer : Nat
  identify_interval : Option Duration
  info_interval : Option Duration
  gossipsub_config : GossipsubConfig
  heartbeat_config : HeartbeatConfig
  set_request_timeout : Duration
  set_connection_keep_alive : Duration
  heartbeat_check_interval : Duration
  heartbeat_max_avg_interval : Duration
  heartbeat_max_time_since_last : Duration
  metrics : Bool
  state : State
  deriving DecidableEq

/-- `const REQ_RES_TIMEOUT: Duration = Duration::from_secs(20);` -/
def REQ_RES_TIMEOUT : Duration := Duration.from_secs 20

/-- `pub const MAX_RESPONSE_SIZE: usize = 18 * 1024 * 1024;` -/
def MAX_RESPONSE_SIZE : Nat := 18 * 1024 * 1024

/-- `pub const MAX_HEADERS_PER_REQUEST: u32 = 100;` -/
def MAX_HEADERS_PER_REQUEST : Nat := 100

/-- `const TRANSPORT_TIMEOUT: Duration = Duration::from_secs(20);` -/
def TRANSPORT_TIMEOUT : Duration := Duration.from_secs 20

/-- `Config::<NotInitialized>::init`, transcribed field by field from the
source (including the source's assignment of `heartbeat_max_avg_interval`
from `self.heartbeat_max_time_since_last`). -/
def Config.init (self : Config NotInitialized) (genesis : Genesis) :
    Except GenesisCommitmentError (Config Initialized) :=
  match genesis.root with
  | Except.error e => Except.error e
  | Except.ok root =>
    Except.ok
      { keypair := self.keypair
        network_name := self.network_name
        checksum := Checksum.from_root root
        address := self.address
        public_address := self.public_address
        tcp_port := self.tcp_port
        max_block_size := self.max_block_size
        max_headers_per_request := self.max_headers_per_request
        bootstrap_nodes := self.bootstrap_nodes
        enable_mdns := self.enable_mdns
        max_peers_connected := self.max_peers_connected
        max_connections_per_peer := self.max_connections_per_peer
        allow_private_addresses := self.allow_private_addresses
        random_walk := self.random_walk
        connection_idle_timeout := self.connection_idle_timeout
        reserved_nodes := self.reserved_nodes
        reserved_nodes_only_mode := self.reserved_nodes_only_mode
        identify_interval := self.identify_interval
        info_interval := self.info_interval
        gossipsub_config := self.gossipsub_config
        heartbeat_config := self.heartbeat_config
        set_request_timeout := self.set_request_timeout
        set_connection_keep_alive := self.set_connection_keep_alive
        heartbeat_check_interval := self.heartbeat_check_interval
        heartbeat_max_avg_interval := self.heartbeat_max_time_since_last
        heartbeat_max_time_since_last := self.heartbeat_max_time_since_last
        metrics := self.metrics
        state := Initialized.mk }

/-- `Config::<NotInitialized>::default(network_name)`; the randomly generated
keypair is an explicit argument of the model. -/
def Config.default (network_name : String) (keypair : Keypair) :
    Config NotInitialized :=
  { keypair := keypair
    network_name := network_name
    checksum := Checksum.default
    address := IpAddr.V4 ⟨0, 0, 0, 0⟩
    public_address := none
    tcp_port := 0
    max_block_size := MAX_RESPONSE_SIZE
    max_headers_per_request := MAX_HEADERS_PER_REQUEST
    bootstrap_nodes := []
    enable_mdns := false
    max_peers_connected := 50
    max_connections_per_peer := 3
    allow_private_addresses := true
    random_walk := some (Duration.from_millis 500)
    connection_idle_timeout := some (Duration.from_secs 120)
    reserved_nodes := []
    reserved_nodes_only_mode := false
    gossipsub_config := default_gossipsub_config
    heartbeat_config := HeartbeatConfig.default
    set_request_timeout := REQ_RES_TIMEOUT
    set_connection_keep_alive := REQ_RES_TIMEOUT
    heartbeat_check_interval := Duration.from_secs 10
    heartbeat_max_avg_interval := Duration.from_secs 20
    heartbeat_max_time_since_last := Duration.from_secs 40
    info_interval := some (Duration.from_secs 3)
    identify_interval := some (Duration.from_secs 5)
    metrics := false
    state := NotInitialized.mk }

/-- `PeerId::try_from_multiaddr` (libp2p): extracts the peer identity embedded
in a multiaddress, when present. -/
def PeerId.try_from_multiaddr (address : Multiaddr) : Option PeerId :=
  address.peer_id

/-- `pub fn peer_ids_set_from(multiaddr: &[Multiaddr]) -> HashSet<PeerId>`.
The source maps `PeerId::try_from_multiaddr(address).unwrap()` over the slice
and collects into a `HashSet`; the `unwrap` panic on an address without an
embedded peer identity is modelled as `none`. -/
def peer_ids_set_from (multiaddr : List Multiaddr) : Option (Finset PeerId) :=
  match multiaddr with
  | [] => some ∅
  | address :: rest =>
    match PeerId.try_from_multiaddr address, peer_ids_set_from rest with
    | some p, some s => some (insert p s)
    | _, _ => none

/-- The noise XX authentication layer built from the node's keypair
(`noise::NoiseConfig::xx(dh_keys).into_authenticated()`); the derived
Diffie-Hellman keys are abstracted to the keypair they authenticate. -/
structure NoiseAuthenticated where
  keypair : Keypair
  deriving DecidableEq

/-- `FuelUpgrade::new(checksum)`: the network-identity checksum exchange
upgrade of the `fuel_upgrade` submodule, holding the local checksum. -/
structure FuelUpgrade where
  checksum : Checksum
  deriving DecidableEq

def FuelUpgrade.new (checksum : Checksum) : FuelUpgrade := ⟨checksum⟩

structure MplexConfig where
  deriving DecidableEq

def MplexConfig.default : MplexConfig := ⟨⟩

/-- yamux multiplexer configuration; the source only touches
`set_max_buffer_size`, so only that field is modelled. -/
structure YamuxConfig where
  max_buffer_size : Nat
  deriving DecidableEq

/-- The library default for `YamuxConfig`; its exact buffer size is irrelevant
because the source overwrites it. -/
def YamuxConfig.default : YamuxConfig := ⟨1024 * 1024⟩

/-- `SelectUpgrade::new(yamux_config, mplex_config)`: yamux is the primary
multiplexer, mplex the negotiated fallback. -/
structure MultiplexConfig where
  yamux : YamuxConfig
  mplex : MplexConfig
  deriving DecidableEq

/-- Modelled from the spec: `peer_manager::ConnectionState` (not part of this
source file): a shared registry mapping each peer identity to its
active-connection count, created once per node instance. -/
structure ConnectionState where
  counts : List (PeerId × Nat)
  deriving DecidableEq

/-- `ConnectionState::new()`: the initial registry with empty counts. -/
def ConnectionState.new : ConnectionState := ⟨[]⟩

def ConnectionState.count_of (st : ConnectionState) (peer : PeerId) : Nat :=
  match st.counts.lookup peer with
  | some n => n
  | none => 0

def ConnectionState.increment (st : ConnectionState) (peer : PeerId) :
    ConnectionState :=
  ⟨(peer, st.count_of peer + 1) :: st.counts.filter (fun pc => !(pc.1 == peer))⟩

/-- The number of distinct peer identities with at least one active
connection. -/
def ConnectionState.distinct_count (st : ConnectionState) : Nat :=
  (st.counts.filter (fun pc => pc.2 != 0)).length

/-- The Reserved Peer Set: the peer identities embedded in the configured
reserved addresses. -/
def reserved_peer_set (reserved_nodes : List Multiaddr) : List PeerId :=
  reserved_nodes.filterMap PeerId.try_from_multiaddr

inductive RejectReason where
  | notReserved
  | peerCapacityExceeded
  | perPeerCapacityExceeded
  deriving DecidableEq

inductive Decision where
  | allow
  | reject (reason : RejectReason)
  deriving DecidableEq

/-- The two admission approvers the source installs into `FuelAuthenticated`:
`GuardedNode::new(&reserved_nodes)` and
`ConnectionTracker::new(&reserved_nodes, connection_state)`, holding exactly
the arguments the source passes to their constructors. -/
inductive AdmissionGate where
  | guardedNode (reserved_nodes : List Multiaddr)
  | connectionTracker (reserved_nodes : List Multiaddr)
      (connection_state : ConnectionState)
  deriving DecidableEq

/-- Modelled from the spec: the admission decision of the `guarded_node` and
`connection_tracker` submodules (not part of this source file).
Reserved-Only allows exactly the members of the Reserved Peer Set and is
stateless beyond that membership check; Capacity-Tracked always admits
reserved peers (incrementing their count), and otherwise checks the
distinct-peer and per-peer capacity limits before admitting and
incrementing. -/
def AdmissionGate.decide (gate : AdmissionGate)
    (max_peers_connected max_connections_per_peer : Nat)
    (peer : PeerId) (st : ConnectionState) : Decision × ConnectionState :=
  match gate with
  | AdmissionGate.guardedNode reserved_nodes =>
    if peer ∈ reserved_peer_set reserved_nodes then (Decision.allow, st)
    else (Decision.reject RejectReason.notReserved, st)
  | AdmissionGate.connectionTracker reserved_nodes _ =>
    if peer ∈ reserved_peer_set reserved_nodes then
      (Decision.allow, st.increment peer)
    else if st.count_of peer = 0 ∧ max_peers_connected ≤ st.distinct_count then
      (Decision.reject RejectReason.peerCapacityExceeded, st)
    else if max_connections_per_peer ≤ st.count_of peer then
      (Decision.reject RejectReason.perPeerCapacityExceeded, st)
    else (Decision.allow, st.increment peer)

/-- `FuelAuthenticated::new(noise_authenticated, approver)`: the authentication
upgrade combining the noise handshake with the admission approver. -/
structure FuelAuthenticated where
  noise : NoiseAuthenticated
  approver : AdmissionGate
  deriving DecidableEq

def FuelAuthenticated.new (noise : NoiseAuthenticated)
    (approver : AdmissionGate) : FuelAuthenticated :=
  ⟨noise, approver⟩

/-- One stage of the composed transport, in the order the source's builder
chain applies them: the base transport (tcp/websocket/dns with upgrade V1),
`.authenticate(fuel_authenticated)`, `.apply(fuel_upgrade)`,
`.multiplex(multiplex_config)`, `.timeout(TRANSPORT_TIMEOUT)` (the timeout
wraps and bounds the whole pipeline). -/
inductive Stage where
  | base_transport
  | authenticate (fuel_authenticated : FuelAuthenticated)
  | apply (fuel_upgrade : FuelUpgrade)
  | multiplex (multiplex_config : MultiplexConfig)
  | timeout (duration : Duration)
  deriving DecidableEq

structure BuiltTransport where
  stages : List Stage
  deriving DecidableEq

/-- `pub(crate) fn build_transport(p2p_config: &Config)`: composes the
pipeline and returns it together with the shared `ConnectionState` handle. -/
def build_transport (p2p_config : Config Initialized) :
    BuiltTransport × ConnectionState :=
  let noise_authenticated : NoiseAuthenticated := ⟨p2p_config.keypair⟩
  let multiplex_config : MultiplexConfig :=
    { yamux := { YamuxConfig.default with max_buffer_size := MAX_RESPONSE_SIZE }
      mplex := MplexConfig.default }
  let fuel_upgrade := FuelUpgrade.new p2p_config.checksum
  let connection_state := ConnectionState.new
  let transport :=
    if p2p_config.reserved_nodes_only_mode then
      let guarded_node := AdmissionGate.guardedNode p2p_config.reserved_nodes
      let fuel_authenticated :=
        FuelAuthenticated.new noise_authenticated guarded_node
      BuiltTransport.mk
        [Stage.base_transport, Stage.authenticate fuel_authenticated,
          Stage.apply fuel_upgrade, Stage.multiplex multiplex_config,
          Stage.timeout TRANSPORT_TIMEOUT]
    else
      let connection_tracker :=
        AdmissionGate.connectionTracker p2p_config.reserved_nodes
          connection_state
      let fuel_authenticated :=
        FuelAuthenticated.new noise_authenticated connection_tracker
      BuiltTransport.mk
        [Stage.base_transport, Stage.authenticate fuel_authenticated,
          Stage.apply fuel_upgrade, Stage.multiplex multiplex_config,
          Stage.timeout TRANSPORT_TIMEOUT]
  (transport, connection_state)

/-- Whether a stage carries the admission approver: in the source the approver
is installed inside `FuelAuthenticated`, i.e. at the authenticate stage. -/
def Stage.carries_admission : Stage → Bool
  | Stage.authenticate _ => true
  | _ => false

/-- Whether a stage is the network-identity checksum exchange
(`.apply(fuel_upgrade)`). -/
def Stage.is_checksum_exchange : Stage → Bool
  | Stage.apply _ => true
  | _ => false

def Stage.is_multiplex : Stage → Bool
  | Stage.multiplex _ => true
  | _ => false

/-- Position of the stage carrying the admission decision. -/
def BuiltTransport.admission_index (t : BuiltTransport) : Nat :=
  t.stages.findIdx Stage.carries_admission

/-- Position of the checksum-exchange stage. -/
def BuiltTransport.checksum_exchange_index (t : BuiltTransport) : Nat :=
  t.stages.findIdx Stage.is_checksum_exchange

/-- Position of the multiplexing stage. -/
def BuiltTransport.multiplex_index (t : BuiltTransport) : Nat :=
  t.stages.findIdx Stage.is_multiplex

/-- All admission approvers installed anywhere in the pipeline. -/
def BuiltTransport.admission_gates (t : BuiltTransport) : List AdmissionGate :=
  t.stages.filterMap (fun s =>
    match s with
    | Stage.authenticate fa => some fa.approver
    | _ => none)

/-- Runs a sequence of connection attempts (one peer identity per attempt)
through an admission gate, threading the shared connection state. -/
def run_attempts (gate : AdmissionGate)
    (max_peers_connected max_connections_per_peer : Nat)
    (peers : List PeerId) (st : ConnectionState) : ConnectionState :=
  peers.foldl
    (fun s p => (gate.decide max_peers_connected max_connections_per_peer p s).2)
    st

/-- A concrete initialized configuration used as evaluation input, with the
reserved-only flag as a parameter; fields mirror the defaults, with one
reserved node whose address embeds peer identity 11. -/
def sample_initialized (reserved_only : Bool) : Config Initialized :=
  { keypair := 0
    network_name := "fuel"
    checksum := Checksum.from_root 7
    address := IpAddr.V4 ⟨0, 0, 0, 0⟩
    public_address := none
    tcp_port := 0
    max_block_size := MAX_RESPONSE_SIZE
    max_headers_per_request := MAX_HEADERS_PER_REQUEST
    bootstrap_nodes := []
    enable_mdns := false
    allow_private_addresses := true
    random_walk := some (Duration.from_millis 500)
    connection_idle_timeout := some (Duration.from_secs 120)
    reserved_nodes := [⟨3, some 11⟩]
    reserved_nodes_only_mode := reserved_only
    max_peers_connected := 50
    max_connections_per_peer := 3
    identify_interval := some (Duration.from_secs 5)
    info_interval := some (Duration.from_secs 3)
    gossipsub_config := default_gossipsub_config
    heartbeat_config := HeartbeatConfig.default
    set_request_timeout := REQ_RES_TIMEOUT
    set_connection_keep_alive := REQ_RES_TIMEOUT
    heartbeat_check_interval := Duration.from_secs 10
    heartbeat_max_avg_interval := Duration.from_secs 20
    heartbeat_max_time_since_last := Duration.from_secs 40
    metrics := false
    state := Initialized.mk }

/-- A concrete well-formed genesis used as evaluation input. -/
def sample_genesis : Genesis := ⟨7, false⟩

/-- Extracts the success value of `init`, with an arbitrary fallback on the
error path; used only to name concrete initialized configurations. -/
def init_result (c : Config NotInitialized) (g : Genesis) : Config Initialized :=
  match c.init g with
  | Except.ok r => r
  | Except.error _ => sample_initialized false

/-- The initialized configurations reachable through the module's public
interface. The field of `Initialized(())` is private in the source, so no
code outside the module can forge the `Initialized` marker: the only public
producer of a `Config<Initialized>` is `init` (the test-only
`default_initialized` helper itself calls `init`). -/
inductive ReachableInitialized : Config Initialized → Prop where
  | of_init (pre : Config NotInitialized) (g : Genesis) (c : Config Initialized)
      (h : Config.init pre g = Except.ok c) : ReachableInitialized c

theorem build_transport_snd (cfg : Config Initialized) :
    (build_transport cfg).2 = ConnectionState.new := by
  by_cases h : cfg.reserved_nodes_only_mode <;> simp [build_transport, h]

theorem build_transport_stages_eq (cfg : Config Initialized) :
    (build_transport cfg).1.stages =
      [Stage.base_transport,
        Stage.authenticate
          (FuelAuthenticated.new ⟨cfg.keypair⟩
            (if cfg.reserved_nodes_only_mode then
              AdmissionGate.guardedNode cfg.reserved_nodes
            else
              AdmissionGate.connectionTracker cfg.reserved_nodes
                ConnectionState.new)),
        Stage.apply (FuelUpgrade.new cfg.checksum),
        Stage.multiplex ⟨⟨MAX_RESPONSE_SIZE⟩, ⟨⟩⟩,
        Stage.timeout TRANSPORT_TIMEOUT] := by
  by_cases h : cfg.reserved_nodes_only_mode <;> simp [build_transport, h]

theorem build_transport_admission_gates_eq (cfg : Config Initialized) :
    (build_transport cfg).1.admission_gates =
      [if cfg.reserved_nodes_only_mode then
        AdmissionGate.guardedNode cfg.reserved_nodes
      else
        AdmissionGate.connectionTracker cfg.reserved_nodes
          ConnectionState.new] := by
  rw [BuiltTransport.admission_gates, build_transport_stages_eq]
  rfl

theorem guardedNode_decide_preserves_state (r : List Multiaddr) (mp mc : Nat)
    (p : PeerId) (st : ConnectionState) :
    ((AdmissionGate.guardedNode r).decide mp mc p st).2 = st := by
  simp only [AdmissionGate.decide]
  split <;> rfl

theorem run_attempts_guardedNode (r : List Multiaddr) (mp mc : Nat)
    (peers : List PeerId) (st : ConnectionState) :
    run_attempts (AdmissionGate.guardedNode r) mp mc peers st = st := by
  induction peers generalizing st with
  | nil => rfl
  | cons p rest ih =>
    have h1 : run_attempts (AdmissionGate.guardedNode r) mp mc (p :: rest) st =
        run_attempts (AdmissionGate.guardedNode r) mp mc rest
          (((AdmissionGate.guardedNode r).decide mp mc p st).2) := rfl
    rw [h1, guardedNode_decide_preserves_state, ih]

/-- C1: the claim says `init` changes only the checksum and the lifecycle
state, preserving every other field including `heartbeat_max_avg_interval`.
The source instead assigns `heartbeat_max_avg_interval` from
`self.heartbeat_max_time_since_last`: on the default configuration (avg
interval 20 s, time-since-last 40 s) the successfully initialized
configuration carries 40 s in `heartbeat_max_avg_interval`, not the input's
20 s. This theorem evaluates the code at that failing input. -/
theorem init_overwrites_heartbeat_max_avg_interval :
    ((Config.default "fuel" 0).init ⟨7, false⟩).map
        (fun c => c.heartbeat_max_avg_interval) =
      Except.ok (Duration.from_secs 40) ∧
    (Config.default "fuel" 0).heartbeat_max_avg_interval =
      Duration.from_secs 20 ∧
    (Config.default "fuel" 0).heartbeat_max_time_since_last =
      Duration.from_secs 40 :=
  ⟨rfl, rfl, rfl⟩

/-- C2 (counterexample): the claim says the checksum exchange happens before
the admission decision. In the source the admission approver is installed
inside `FuelAuthenticated` at the authenticate stage, and
`.apply(fuel_upgrade)` comes after it, so at this concrete initialized
configuration the checksum-exchange stage does not precede the stage
carrying the admission decision. -/
theorem checksum_exchange_not_before_admission :
    ¬ ((build_transport (sample_initialized false)).1.checksum_exchange_index <
        (build_transport (sample_initialized false)).1.admission_index) := by
  decide

/-- C2 (amended): for every initialized configuration the pipeline is, in
order: base transport, authentication (which carries the admission
approver), the network-identity checksum exchange, stream multiplexing, and
the overall timeout; the admission decision precedes the checksum exchange,
which precedes multiplexing. -/
theorem pipeline_order_admission_then_checksum_then_multiplex
    (cfg : Config Initialized) :
    (∃ fa fu mc,
      (build_transport cfg).1.stages =
        [Stage.base_transport, Stage.authenticate fa, Stage.apply fu,
          Stage.multiplex mc, Stage.timeout TRANSPORT_TIMEOUT] ∧
      fu.checksum = cfg.checksum) ∧
    (build_transport cfg).1.admission_index <
      (build_transport cfg).1.checksum_exchange_index ∧
    (build_transport cfg).1.checksum_exchange_index <
      (build_transport cfg).1.multiplex_index := by
  refine ⟨⟨_, _, _, build_transport_stages_eq cfg, rfl⟩, ?_, ?_⟩ <;>
    simp [BuiltTransport.admission_index, BuiltTransport.checksum_exchange_index,
      BuiltTransport.multiplex_index, build_transport_stages_eq cfg,
      List.findIdx_cons, Stage.carries_admission, Stage.is_checksum_exchange,
      Stage.is_multiplex]

/-- C3: `init` fails exactly when the genesis root computation fails,
propagating that error; on success it returns an initialized configuration
whose checksum is derived from the genesis root, and no configuration is
produced on the error path. -/
theorem init_error_iff_root_error (c : Config NotInitialized) (g : Genesis) :
    (∀ e, g.root = Except.error e → c.init g = Except.error e) ∧
    (∀ r, g.root = Except.ok r →
      ∃ c2, c.init g = Except.ok c2 ∧ c2.checksum = Checksum.from_root r) := by
  constructor
  · intro e he
    unfold Config.init
    rw [he]
  · intro r hr
    unfold Config.init
    rw [hr]
    exact ⟨_, rfl, rfl⟩

/-- C3 (witness): on the default configuration, a malformed genesis makes
`init` return the root-computation error, and a well-formed genesis with
root 7 yields a configuration whose checksum is derived from 7. -/
theorem init_error_iff_root_error_witness :
    (Config.default "fuel" 0).init ⟨7, true⟩ =
      Except.error GenesisCommitmentError.rootComputationFailed ∧
    ((Config.default "fuel" 0).init ⟨7, false⟩).map Config.checksum =
      Except.ok (Checksum.from_root 7) := by
  constructor
  · exact (init_error_iff_root_error (Config.default "fuel" 0) ⟨7, true⟩).1 _ rfl
  · obtain ⟨c2, h1, h2⟩ :=
      (init_error_iff_root_error (Config.default "fuel" 0) ⟨7, false⟩).2 7 rfl
    rw [h1]
    simp [Except.map, h2]

/-- C4: when every address in the list embeds a peer identity,
`peer_ids_set_from` returns exactly the set of those identities and the
panic branch is unreachable; a list containing an address without an
embedded peer identity aborts (modelled as `none`) instead of returning a
set. -/
theorem peer_ids_set_from_spec :
    (∀ multiaddr : List Multiaddr,
      (∀ m ∈ multiaddr, (PeerId.try_from_multiaddr m).isSome = true) →
      peer_ids_set_from multiaddr =
        some (multiaddr.filterMap PeerId.try_from_multiaddr).toFinset) ∧
    peer_ids_set_from [⟨0, none⟩] = none := by
  constructor
  · intro multiaddr h
    induction multiaddr with
    | nil => rfl
    | cons a rest ih =>
      have ha : (PeerId.try_from_multiaddr a).isSome = true := h a (by simp)
      obtain ⟨p, hp⟩ := Option.isSome_iff_exists.mp ha
      have hrest := ih (fun m hm => h m (List.mem_cons_of_mem a hm))
      simp [peer_ids_set_from, hp, hrest, List.filterMap_cons]
  · rfl

/-- C4 (witness): a concrete list where every address embeds a peer identity
evaluates to the set of the embedded identities. -/
theorem peer_ids_set_from_spec_witness :
    peer_ids_set_from [⟨0, some 1⟩, ⟨5, some 2⟩, ⟨6, some 1⟩] =
      some ([⟨0, some 1⟩, ⟨5, some 2⟩,
        ⟨6, some 1⟩].filterMap PeerId.try_from_multiaddr).toFinset :=
  peer_ids_set_from_spec.1 _ (by decide)

/-- C5: `build_transport` takes a `Config Initialized` (so by its type it
cannot be applied to a `Config NotInitialized`; no runtime flag is
checked), and every initialized configuration reachable through the public
interface — where the `Initialized` marker can only come from `init`, its
constructor being private — is an output of `init`. -/
theorem initialized_only_via_init (c : Config Initialized)
    (h : ReachableInitialized c) :
    ∃ (pre : Config NotInitialized) (g : Genesis),
      pre.init g = Except.ok c := by
  cases h with
  | of_init pre g c hc => exact ⟨pre, g, hc⟩

/-- C5 (witness): the concrete configuration obtained by initializing the
default configuration with the sample genesis is reachable and is an output
of `init`. -/
theorem initialized_only_via_init_witness :
    ∃ (pre : Config NotInitialized) (g : Genesis),
      pre.init g =
        Except.ok (init_result (Config.default "fuel" 0) sample_genesis) :=
  initialized_only_via_init _
    (ReachableInitialized.of_init (Config.default "fuel" 0) sample_genesis _ rfl)

/-- C6: `build_transport` installs exactly one admission approver, chosen by
`reserved_nodes_only_mode`: the reserved-only gate built from the
reserved-node list when the flag is true, and the capacity-tracked gate
built from the reserved-node list and the returned shared connection state
when the flag is false. -/
theorem admission_variant_selected_once_by_flag (cfg : Config Initialized) :
    (cfg.reserved_nodes_only_mode = true →
      (build_transport cfg).1.admission_gates =
        [AdmissionGate.guardedNode cfg.reserved_nodes]) ∧
    (cfg.reserved_nodes_only_mode = false →
      (build_transport cfg).1.admission_gates =
        [AdmissionGate.connectionTracker cfg.reserved_nodes
          (build_transport cfg).2]) := by
  constructor <;> intro h <;>
    simp [build_transport_admission_gates_eq, build_transport_snd, h]

/-- C6 (witness): evaluated at the sample configuration with the flag true
and false. -/
theorem admission_variant_selected_once_by_flag_witness :
    (build_transport (sample_initialized true)).1.admission_gates =
      [AdmissionGate.guardedNode (sample_initialized true).reserved_nodes] ∧
    (build_transport (sample_initialized false)).1.admission_gates =
      [AdmissionGate.connectionTracker (sample_initialized false).reserved_nodes
        (build_transport (sample_initialized false)).2] :=
  ⟨(admission_variant_selected_once_by_flag (sample_initialized true)).1 rfl,
    (admission_variant_selected_once_by_flag (sample_initialized false)).2 rfl⟩

/-- C7: `default(network_name)` returns an uninitialized configuration with
the placeholder checksum, `max_peers_connected = 50`,
`max_connections_per_peer = 3`, `reserved_nodes_only_mode = false`, empty
bootstrap and reserved node lists, and request timeout and connection
keep-alive both 20 seconds. -/
theorem default_config_has_documented_defaults (network_name : String)
    (keypair : Keypair) :
    (Config.default network_name keypair).state = NotInitialized.mk ∧
    (Config.default network_name keypair).checksum = Checksum.default ∧
    (Config.default network_name keypair).max_peers_connected = 50 ∧
    (Config.default network_name keypair).max_connections_per_peer = 3 ∧
    (Config.default network_name keypair).reserved_nodes_only_mode = false ∧
    (Config.default network_name keypair).bootstrap_nodes = [] ∧
    (Config.default network_name keypair).reserved_nodes = [] ∧
    (Config.default network_name keypair).set_request_timeout =
      Duration.from_secs 20 ∧
    (Config.default network_name keypair).set_connection_keep_alive =
      Duration.from_secs 20 :=
  ⟨rfl, rfl, rfl, rfl, rfl, rfl, rfl, rfl, rfl⟩

/-- C8: the operational constants are wired as contracted: the maximum
response size is 18 * 1024 * 1024 bytes and is both the default
`max_block_size` and the yamux maximum buffer size of the multiplex stage;
the default maximum headers per request is 100; and in both admission
variants the pipeline ends with the fixed 20-second transport timeout. -/
theorem operational_constants_wired :
    MAX_RESPONSE_SIZE = 18 * 1024 * 1024 ∧
    MAX_HEADERS_PER_REQUEST = 100 ∧
    TRANSPORT_TIMEOUT = Duration.from_secs 20 ∧
    (∀ (n : String) (k : Keypair),
      (Config.default n k).max_block_size = MAX_RESPONSE_SIZE ∧
      (Config.default n k).max_headers_per_request = MAX_HEADERS_PER_REQUEST) ∧
    (∀ cfg : Config Initialized,
      (∃ mc : MultiplexConfig,
        Stage.multiplex mc ∈ (build_transport cfg).1.stages ∧
        mc.yamux.max_buffer_size = MAX_RESPONSE_SIZE) ∧
      (build_transport cfg).1.stages.getLast? =
        some (Stage.timeout TRANSPORT_TIMEOUT)) := by
  refine ⟨rfl, rfl, rfl, fun n k => ⟨rfl, rfl⟩, fun cfg => ⟨⟨⟨⟨MAX_RESPONSE_SIZE⟩, ⟨⟩⟩, ?_, rfl⟩, ?_⟩⟩ <;>
    simp [build_transport_stages_eq cfg]

/-- C9: the checksum is determined by the genesis alone: two configurations
initialized with the same genesis, when both initializations succeed, carry
equal checksums, whatever their other fields. -/
theorem checksum_depends_only_on_genesis (c1 c2 : Config NotInitialized)
    (g : Genesis) (r1 r2 : Config Initialized)
    (h1 : c1.init g = Except.ok r1) (h2 : c2.init g = Except.ok r2) :
    r1.checksum = r2.checksum := by
  unfold Config.init at h1 h2
  cases hr : g.root with
  | error e =>
    rw [hr] at h1
    simp at h1
  | ok root =>
    rw [hr] at h1 h2
    injection h1 with h1e
    injection h2 with h2e
    rw [← h1e, ← h2e]

/-- C9 (witness): two different default configurations initialized with the
sample genesis have equal checksums. -/
theorem checksum_depends_only_on_genesis_witness :
    (init_result (Config.default "fuel" 0) sample_genesis).checksum =
      (init_result (Config.default "bootstrap" 1) sample_genesis).checksum :=
  checksum_depends_only_on_genesis (Config.default "fuel" 0)
    (Config.default "bootstrap" 1) sample_genesis _ _ rfl rfl

/-- C10: when `reserved_nodes_only_mode` is true, the connection state
returned by `build_transport` is the freshly created empty registry, the
installed admission approver is the reserved-only gate holding only the
reserved-node list, and no sequence of connection attempts through that
approver ever changes the returned connection state. -/
theorem reserved_only_never_mutates_connection_state (cfg : Config Initialized)
    (h : cfg.reserved_nodes_only_mode = true) :
    (build_transport cfg).2 = ConnectionState.new ∧
    ∀ gate ∈ (build_transport cfg).1.admission_gates,
      ∀ mp mc (peers : List PeerId),
        run_attempts gate mp mc peers (build_transport cfg).2 =
          (build_transport cfg).2 := by
  refine ⟨build_transport_snd cfg, ?_⟩
  intro gate hmem mp mc peers
  rw [build_transport_admission_gates_eq, h] at hmem
  simp at hmem
  rw [hmem]
  exact run_attempts_guardedNode _ _ _ _ _

/-- C10 (witness): with the sample reserved-only configuration (reserved
peer 11), attempts by a reserved peer, a non-reserved peer, and a repeat all
leave the returned connection state unchanged. -/
theorem reserved_only_never_mutates_connection_state_witness :
    run_attempts
      (AdmissionGate.guardedNode (sample_initialized true).reserved_nodes)
      50 3 [11, 12, 11] (build_transport (sample_initialized true)).2 =
      (build_transport (sample_initialized true)).2 :=
  (reserved_only_never_mutates_connection_state (sample_initialized true)
      rfl).2
    (AdmissionGate.guardedNode (sample_initialized true).reserved_nodes)
    (by decide) 50 3 [11, 12, 11]

end FuelCoreP2P
